import Mathlib

/-!
Verification development for the `python-metrohash` repository.

The repository's build script `src/setup.py` is embedded shallowly below:
its module-level computation (CPU-capability query, capability booleans,
compile-flag selection, helper functions and the wheel-tag override) becomes
pure Lean functions over an explicit build environment.  The hashing engine
the package wraps (the MetroHash C++ sources) is not part of `src/`, so its
streaming state machine is modelled from the specification further down.
-/

/-- The environment observed by `setup.py` when it runs: the result of the
`cpuinfo.get_cpu_info()["flags"]` query (which may raise, modelled as
`Except.error`), `os.name`, the optional `AUDITWHEEL_ARCH` environment
variable, `platform.machine()`, and `struct.calcsize("P")`. -/
structure BuildEnv where
  cpuQuery : Except String (List String)
  system : String
  auditwheelArch : Option String
  machine : String
  ptrSize : Nat

/-- `setup.py` lines 13-19: `CPU_FLAGS = get_cpu_info()["flags"]`, and on any
exception `CPU_FLAGS = {}` (empty, so every membership test is false). -/
def CPU_FLAGS (e : BuildEnv) : List String :=
  match e.cpuQuery with
  | Except.ok flags => flags
  | Except.error _ => []

/-- `setup.py` lines 40-42: `struct.calcsize("P") * 8`. -/
def get_system_bits (ptrSize : Nat) : Nat :=
  ptrSize * 8

/-- `setup.py` line 57: `BITS = get_system_bits()`. -/
def BITS (e : BuildEnv) : Nat :=
  get_system_bits e.ptrSize

/-- `setup.py` line 58: `HAVE_SSE42 = "sse4_2" in CPU_FLAGS`. -/
def HAVE_SSE42 (e : BuildEnv) : Bool :=
  (CPU_FLAGS e).contains "sse4_2"

/-- `setup.py` line 59: `HAVE_AES = "aes" in CPU_FLAGS`. -/
def HAVE_AES (e : BuildEnv) : Bool :=
  (CPU_FLAGS e).contains "aes"

/-- `setup.py` line 82: `TARGET_ARCH = os.environ.get("AUDITWHEEL_ARCH", platform.machine())`. -/
def TARGET_ARCH (e : BuildEnv) : String :=
  e.auditwheelArch.getD e.machine

/-- `setup.py` lines 67-76: the base optimisation flags, depending on `os.name`. -/
def baseFlags (e : BuildEnv) : List String :=
  if e.system = "nt" then ["/O2"]
  else ["-O3", "-Wno-unused-value", "-Wno-unused-function"]

/-- `setup.py` lines 85-90: the SSE4.2 flag appended when `HAVE_SSE42` and the
target architecture is `x86_64` and `BITS == 64`. -/
def sse42Flags (e : BuildEnv) : List String :=
  if HAVE_SSE42 e = true ∧ TARGET_ARCH e = "x86_64" ∧ BITS e = 64 then
    (if e.system = "nt" then ["/D__SSE4_2__"] else ["-msse4.2"])
  else []

/-- `setup.py` lines 92-97: the AES flag appended under the same architecture
conditions when `HAVE_AES`. -/
def aesFlags (e : BuildEnv) : List String :=
  if HAVE_AES e = true ∧ TARGET_ARCH e = "x86_64" ∧ BITS e = 64 then
    (if e.system = "nt" then ["/D__AES__"] else ["-maes"])
  else []

/-- `setup.py` lines 61-97: the compile-flag list, built by the three
sequential appends of the script. -/
def CXXFLAGS (e : BuildEnv) : List String :=
  baseFlags e ++ sse42Flags e ++ aesFlags e

/-- Whether the build selects any accelerated code path: one of the SSE4.2 or
AES acceleration flags was appended to `CXXFLAGS`. -/
def accelerationSelected (e : BuildEnv) : Bool :=
  (CXXFLAGS e).contains "-msse4.2" || (CXXFLAGS e).contains "/D__SSE4_2__"
    || (CXXFLAGS e).contains "-maes" || (CXXFLAGS e).contains "/D__AES__"

/-- Modelled from the spec: the Feature Dispatcher's notion of an instruction
being "actually present at runtime" on the CPU executing the compiled binary
(spec section 4.5); the runtime CPU's flag set is a parameter distinct from
the build machine's. -/
def instructionPresentAtRuntime (runtimeFlags : List String) (instr : String) : Bool :=
  runtimeFlags.contains instr

/-- The selection policy claimed by the spec (section 4.5): an accelerated
path is selected only if the required instruction is present on the CPU
executing the binary at runtime, whatever the build-time environment was. -/
def runtimeOnlySelectionPolicy : Prop :=
  ∀ (e : BuildEnv) (runtimeFlags : List String),
    accelerationSelected e = true →
      instructionPresentAtRuntime runtimeFlags "sse4_2" = true
        ∨ instructionPresentAtRuntime runtimeFlags "aes" = true

/-- A build environment on a 64-bit x86-64 POSIX machine whose build-time CPU
reports SSE4.2. -/
def envSse42 : BuildEnv :=
  { cpuQuery := Except.ok ["sse4_2"]
    system := "posix"
    auditwheelArch := none
    machine := "x86_64"
    ptrSize := 8 }

/-- A build environment whose capability query raised an exception. -/
def envQueryFailed : BuildEnv :=
  { cpuQuery := Except.error "cpuinfo failed"
    system := "posix"
    auditwheelArch := none
    machine := "x86_64"
    ptrSize := 8 }

/-- A build environment targeting a non-x86_64 architecture whose build-time
CPU nonetheless reports both SSE4.2 and AES. -/
def envAarch64 : BuildEnv :=
  { cpuQuery := Except.ok ["sse4_2", "aes"]
    system := "posix"
    auditwheelArch := some "aarch64"
    machine := "x86_64"
    ptrSize := 8 }

/-- Same CPU-query result as `envSse42` but a Windows (`os.name == "nt"`)
system, used to show the capability booleans depend only on the query. -/
def envSse42nt : BuildEnv :=
  { cpuQuery := Except.ok ["sse4_2"]
    system := "nt"
    auditwheelArch := none
    machine := "x86_64"
    ptrSize := 8 }

/-- Python's `str.startswith`, used by `bdist_wheel_abi3.get_tag`
(`python.startswith("cp")`). -/
def pyStartsWith (s pre : String) : Bool :=
  List.isPrefixOf pre.toList s.toList

/-- `setup.py` lines 45-53, `bdist_wheel_abi3.get_tag`: takes the
`(python, abi, plat)` triple computed by the superclass and overrides it with
`("cp36", "abi3", plat)` when the python tag starts with `"cp"`. -/
def get_tag (superTag : String × String × String) : String × String × String :=
  let (python, abi, plat) := superTag
  if pyStartsWith python "cp" = true then ("cp36", "abi3", plat)
  else (python, abi, plat)

/-- The I/O environment `get_long_description` runs against: `read` models
`open(os.path.join(os.path.dirname(__file__), relpath), "rb").read()` keyed by
the relative path (bytes on success, a raised exception as `Except.error`),
and `decode` models `bytes.decode(encoding)`. -/
structure FileSystem where
  read : String → Except String (List Nat)
  decode : String → List Nat → Except String String

/-- `setup.py` lines 139-141: the built-in default long description, the
contents of the triple-quoted `_long_desc` literal. -/
def defaultLongDescription : String :=
  "\n\n    "

/-- `setup.py` lines 138-147, `get_long_description`: read and decode the
named file, returning the default string if anything raises. -/
def get_long_description (fs : FileSystem) (relpath : String) (encoding : String) : String :=
  match fs.read relpath with
  | Except.error _ => defaultLongDescription
  | Except.ok bytes =>
      match fs.decode encoding bytes with
      | Except.error _ => defaultLongDescription
      | Except.ok s => s

/-- A file system in which `README.md` is readable and decodes to `"hi"`. -/
def fsOk : FileSystem :=
  { read := fun _ => Except.ok [104, 105]
    decode := fun _ _ => Except.ok "hi" }

/-- One top-level statement of the `setup.py` module body, in source order.
`cpuCapabilityQuery` is the `try`/`except` of lines 13-19 (the only statement
that queries CPU capabilities; both of its branches assign `CPU_FLAGS`);
`condAppend t` is an `if`-statement that mutates the already-assigned `t`. -/
inductive TopLevelStmt where
  | importStmt (module : String)
  | cpuCapabilityQuery
  | tryImportCython
  | classDef (name : String)
  | funcDef (name : String)
  | assign (target : String)
  | printCall
  | condAppend (target : String)
  | setupCall
  deriving DecidableEq, Repr

/-- The `setup.py` module body, statement by statement in source order
(lines 3-188). -/
def setupModule : List TopLevelStmt :=
  [ TopLevelStmt.importStmt "os"
  , TopLevelStmt.importStmt "platform"
  , TopLevelStmt.importStmt "struct"
  , TopLevelStmt.importStmt "setuptools"
  , TopLevelStmt.importStmt "setuptools.dist"
  , TopLevelStmt.importStmt "setuptools.extension"
  , TopLevelStmt.importStmt "wheel.bdist_wheel"
  , TopLevelStmt.cpuCapabilityQuery
  , TopLevelStmt.tryImportCython
  , TopLevelStmt.classDef "BinaryDistribution"
  , TopLevelStmt.funcDef "get_system_bits"
  , TopLevelStmt.classDef "bdist_wheel_abi3"
  , TopLevelStmt.assign "SYSTEM"
  , TopLevelStmt.assign "BITS"
  , TopLevelStmt.assign "HAVE_SSE42"
  , TopLevelStmt.assign "HAVE_AES"
  , TopLevelStmt.assign "CXXFLAGS"
  , TopLevelStmt.printCall
  , TopLevelStmt.printCall
  , TopLevelStmt.printCall
  , TopLevelStmt.condAppend "CXXFLAGS"
  , TopLevelStmt.assign "TARGET_ARCH"
  , TopLevelStmt.printCall
  , TopLevelStmt.condAppend "CXXFLAGS"
  , TopLevelStmt.condAppend "CXXFLAGS"
  , TopLevelStmt.assign "CXXHEADERS"
  , TopLevelStmt.assign "CXXSOURCES"
  , TopLevelStmt.assign "CMDCLASS"
  , TopLevelStmt.condAppend "CMDCLASS"
  , TopLevelStmt.assign "SRC_EXT"
  , TopLevelStmt.assign "EXT_MODULES"
  , TopLevelStmt.assign "VERSION"
  , TopLevelStmt.assign "URL"
  , TopLevelStmt.funcDef "get_long_description"
  , TopLevelStmt.setupCall ]

/-- Whether a statement queries CPU capabilities. -/
def queriesCpu : TopLevelStmt → Bool
  | TopLevelStmt.cpuCapabilityQuery => true
  | _ => false

/-- Whether a statement assigns or mutates the binding named `n`
(`cpuCapabilityQuery` assigns `CPU_FLAGS` in both of its branches). -/
def assignsTo (n : String) : TopLevelStmt → Bool
  | TopLevelStmt.assign t => t = n
  | TopLevelStmt.condAppend t => t = n
  | TopLevelStmt.cpuCapabilityQuery => n = "CPU_FLAGS"
  | _ => false

/-! ## The hashing engine

The MetroHash engine the package wraps lives in the C++ sources
(`src/metrohash64.cc`, `src/metrohash128.cc`, `src/metrohash128crc.h`) that
the repository snapshot does not include under `src/`; `setup.py` only lists
and compiles them.  The engine below is therefore modelled from the
specification (sections 3, 4.1-4.5 and 6): a streaming state machine over
64-bit modular arithmetic with 32-byte blocks, a residual buffer shorter than
a block, little-endian zero-extending word loads, multiply-rotate-add-multiply
mixing, per-variant lane counts and constants, a CRC-based tail path for the
accelerated 128-bit family, and loud failure of `update` after `finalize`. -/

/-- The 64-bit word modulus; all lane arithmetic wraps modulo `2 ^ 64`. -/
def W64 : Nat := 2 ^ 64

/-- Modelled from the spec (4.1): circular right rotation on a 64-bit word,
with the rotation amount taken modulo 64. -/
def rotr64 (x n : Nat) : Nat :=
  ((x % W64) >>> (n % 64) ||| (x % W64) <<< ((64 - n % 64) % 64)) % W64

/-- Modelled from the spec (4.1): `mix(accumulator, input, kA, kB)` multiplies
the input by `kA`, rotates the product by a fixed amount, adds it to the
accumulator and multiplies the sum by `kB`, all modulo `2 ^ 64`. -/
def mix (acc input kA kB : Nat) : Nat :=
  ((acc + rotr64 ((input * kA) % W64) 29) * kB) % W64

/-- Modelled from the spec (4.1): little-endian word load; the first byte is
least significant and missing high-order bytes are zero-extended. -/
def readLE (bytes : List Nat) : Nat :=
  bytes.foldr (fun b acc => acc * 256 + b % 256) 0

/-- Split a byte list into consecutive 8-byte little-endian words (the last
word zero-extended). -/
def leWords : List Nat → List Nat
  | [] => []
  | b :: rest => readLE ((b :: rest).take 8) :: leWords ((b :: rest).drop 8)
  termination_by bs => bs.length
  decreasing_by simp; omega

/-- The three digest families exposed by the package: `metrohash64`,
`metrohash128`, and the CRC-accelerated `metrohash128crc`. -/
inductive Variant where
  | metro64
  | metro128
  | metro128crc
  deriving DecidableEq, Repr

/-- Number of 64-bit accumulator lanes per variant (spec 4.2, 4.3). -/
def Variant.laneCount : Variant → Nat
  | Variant.metro64 => 4
  | Variant.metro128 => 2
  | Variant.metro128crc => 2

/-- Per-lane multiplicative constant pairs, per variant (the published
MetroHash constant tables; spec 9 requires them to come from the canonical
reference rather than be invented). -/
def Variant.constants : Variant → List (Nat × Nat)
  | Variant.metro64 =>
      [(0xD6D018F5, 0xA2AA033B), (0x62992FC1, 0x30BC5B29),
       (0xD6D018F5, 0x62992FC1), (0xA2AA033B, 0x30BC5B29)]
  | Variant.metro128 =>
      [(0xC83A91E1, 0x8648DBDB), (0x7BDEC03B, 0x2F5870A5)]
  | Variant.metro128crc =>
      [(0xEE783E2F, 0xAD07C493), (0x797A90BB, 0x2E4B2E1B)]

/-- Modelled from the spec (4.2, 4.3): lanes are seeded deterministically
from the seed using fixed additive/multiplicative constants, not by
broadcasting the seed. -/
def initLanes (V : Variant) (seed : Nat) : List Nat :=
  V.constants.map (fun kp => ((seed % W64 + kp.1) * kp.2) % W64)

/-- Bytes of one 32-byte block fed to each lane: `32 / laneCount`. -/
def laneStride (V : Variant) : Nat :=
  32 / V.laneCount

/-- One lane absorbing its slice of a block, one 8-byte word at a time. -/
def mixLane (kp : Nat × Nat) (lane : Nat) (bytes : List Nat) : Nat :=
  (leWords bytes).foldl (fun a w => mix a w kp.1 kp.2) lane

/-- Modelled from the spec (4.2, 4.3): a full 32-byte block is consumed
atomically, each lane absorbing its contiguous slice. -/
def mixBlock (V : Variant) (lanes : List Nat) (block : List Nat) : List Nat :=
  List.mapIdx
    (fun i p => mixLane p.2 p.1 ((block.drop (i * laneStride V)).take (laneStride V)))
    (lanes.zip V.constants)

/-- Consume every full 32-byte block from the buffer, returning the new lanes
and the remaining (shorter than a block) bytes. -/
def processBlocks (V : Variant) (lanes : List Nat) (buf : List Nat) : List Nat × List Nat :=
  if _h : 32 ≤ buf.length then
    processBlocks V (mixBlock V lanes (buf.take 32)) (buf.drop 32)
  else (lanes, buf)
  termination_by buf.length
  decreasing_by simp; omega

/-- The streaming engine state (spec section 3): accumulator lanes, the
residual buffer of not-yet-consumed bytes, the running total length, the
mixing path chosen at construction, and the lifecycle flag set by
finalization. -/
@[ext]
structure EngineState where
  variant : Variant
  seed : Nat
  accelerated : Bool
  lanes : List Nat
  residual : List Nat
  totalLen : Nat
  finalized : Bool
  deriving Repr

/-- Modelled from the spec (6): engine construction from a seed and variant;
the Feature Dispatcher's verdict (`accel`) is consulted once here and fixes
the internal mixing path. -/
def initEngine (V : Variant) (seed : Nat) (accel : Bool) : EngineState :=
  { variant := V
    seed := seed
    accelerated := accel
    lanes := initLanes V seed
    residual := []
    totalLen := 0
    finalized := false }

/-- The raw streaming transition: append the new bytes to the residual
buffer, consume every full 32-byte block, keep the remainder, and advance the
total-length counter. -/
def updateRaw (st : EngineState) (b : List Nat) : EngineState :=
  { st with
    lanes := (processBlocks st.variant st.lanes (st.residual ++ b)).1
    residual := (processBlocks st.variant st.lanes (st.residual ++ b)).2
    totalLen := st.totalLen + b.length }

/-- Modelled from the spec (6, 7): `update` feeds a chunk of bytes, failing
loudly when called on a finalized engine. -/
def update (st : EngineState) (b : List Nat) : Except String EngineState :=
  if st.finalized = true then
    Except.error "update called on finalized engine; call reset first"
  else Except.ok (updateRaw st b)

/-- Modelled from the spec (4.2, 4.3): the final avalanche, an
xor-shift-multiply sequence on a 64-bit word. -/
def avalanche (x : Nat) : Nat :=
  let a := ((x % W64) ^^^ ((x % W64) >>> 33)) % W64
  let b := (a * 0xFF51AFD7ED558CCD) % W64
  let c := (b ^^^ (b >>> 29)) % W64
  let d := (c * 0xC4CEB9FE1A85EC53) % W64
  (d ^^^ (d >>> 32)) % W64

/-- One bit-step of CRC-32C (Castagnoli polynomial, reflected form). -/
def crc32cStep (crc : Nat) : Nat :=
  if crc % 2 = 1 then (crc / 2) ^^^ 0x82F63B78 else crc / 2

/-- Modelled from the spec (4.4): the hardware CRC32 instruction over a byte
sequence, as bytewise CRC-32C. -/
def crc32c (crc : Nat) (bytes : List Nat) : Nat :=
  bytes.foldl
    (fun c b => (List.range 8).foldl (fun c2 _ => crc32cStep c2) ((c ^^^ b % 256) % 2 ^ 32))
    (crc % 2 ^ 32)

/-- Modelled from the spec (4.2): the software tail path mixes the residual
words and the exact residual length into the accumulator. -/
def softTailMix (kp : Nat × Nat) (acc : Nat) (residual : List Nat) : Nat :=
  mix ((leWords residual).foldl (fun a w => mix a w kp.1 kp.2) acc) residual.length kp.1 kp.2

/-- Modelled from the spec (4.4): the accelerated tail path applies the CRC
instruction over the lane state and the residual bytes. -/
def crcTailMix (kp : Nat × Nat) (acc : Nat) (residual : List Nat) : Nat :=
  mix acc (crc32c (acc % 2 ^ 32) residual) kp.1 kp.2

/-- The tail/residual mixing step: the CRC path exactly when the engine is the
accelerated 128-bit family and the dispatcher reported the instruction
present; the software path otherwise (spec 4.4's silent fallback). -/
def tailMix (st : EngineState) (acc : Nat) : Nat :=
  if st.variant = Variant.metro128crc ∧ st.accelerated = true then
    crcTailMix (st.variant.constants.headD (1, 1)) acc st.residual
  else
    softTailMix (st.variant.constants.headD (1, 1)) acc st.residual

/-- Fold all lanes into a single 64-bit accumulator through rotate/mix/xor
steps (spec 4.2's finalization fold). -/
def foldLanes (lanes : List Nat) : Nat :=
  lanes.foldl (fun a l => (rotr64 (a ^^^ l) 37 * 0x9E3779B97F4A7C15) % W64) 0

/-- Little-endian byte serialization of a word, `n` bytes wide (spec 6). -/
def toLEBytes (x : Nat) (n : Nat) : List Nat :=
  (List.range n).map (fun i => (x >>> (8 * i)) % 256)

/-- The digest of the current state: 8 bytes for the 64-bit variant; for the
128-bit families, each lane is cross-mixed with the other, tail-mixed,
avalanched, and the two halves concatenate low half first (spec 4.2-4.4). -/
def digestBytes (st : EngineState) : List Nat :=
  match st.variant with
  | Variant.metro64 =>
      toLEBytes (avalanche (mix (tailMix st (foldLanes st.lanes)) st.totalLen
        0xD6D018F5 0xA2AA033B)) 8
  | _ =>
      let lo := st.lanes.headD 0
      let hi := (st.lanes.drop 1).headD 0
      let loF := avalanche (mix (tailMix st (mix lo (rotr64 hi 26) 0xC83A91E1 0x8648DBDB))
        st.totalLen 0x7BDEC03B 0x2F5870A5)
      let hiF := avalanche (mix (tailMix st (mix hi (rotr64 lo 26) 0x8648DBDB 0xC83A91E1))
        st.totalLen 0x2F5870A5 0x7BDEC03B)
      toLEBytes loF 8 ++ toLEBytes hiF 8

/-- Modelled from the spec (6): finalization yields the digest and moves the
engine to the `Finalized` lifecycle state, in which updates are rejected. -/
def finalizeE (st : EngineState) : List Nat × EngineState :=
  (digestBytes st, { st with finalized := true })

/-- Modelled from the spec (6): `reset` returns the engine to a fresh state
for reuse, with a caller-chosen seed, keeping the dispatcher's verdict. -/
def reset (st : EngineState) (newSeed : Nat) : EngineState :=
  initEngine st.variant newSeed st.accelerated

/-- Feed a list of chunks through successive `update` calls, stopping at the
first reported error. -/
def feedChunks (st : EngineState) : List (List Nat) → Except String EngineState
  | [] => Except.ok st
  | c :: cs =>
      match update st c with
      | Except.error e => Except.error e
      | Except.ok st2 => feedChunks st2 cs

/-- Modelled from the spec (6): the one-shot convenience
`hash(bytes, seed, variant)`, construct + update + finalize. -/
def metroHash (V : Variant) (seed : Nat) (accel : Bool) (b : List Nat) : List Nat :=
  (finalizeE (updateRaw (initEngine V seed accel) b)).1

/-! ## Helper lemmas -/

theorem accel_not_mem_baseFlags (e : BuildEnv) :
    "-msse4.2" ∉ baseFlags e ∧ "/D__SSE4_2__" ∉ baseFlags e
      ∧ "-maes" ∉ baseFlags e ∧ "/D__AES__" ∉ baseFlags e := by
  unfold baseFlags
  split <;> refine ⟨?_, ?_, ?_, ?_⟩ <;> decide

theorem mem_sse42Flags_iff (e : BuildEnv) :
    ("-msse4.2" ∈ sse42Flags e ∨ "/D__SSE4_2__" ∈ sse42Flags e)
      ↔ (HAVE_SSE42 e = true ∧ TARGET_ARCH e = "x86_64" ∧ BITS e = 64) := by
  unfold sse42Flags
  split
  case isTrue h => simp only [h, and_true, iff_true]; split <;> simp
  case isFalse h => simp [h]

theorem mem_aesFlags_iff (e : BuildEnv) :
    ("-maes" ∈ aesFlags e ∨ "/D__AES__" ∈ aesFlags e)
      ↔ (HAVE_AES e = true ∧ TARGET_ARCH e = "x86_64" ∧ BITS e = 64) := by
  unfold aesFlags
  split
  case isTrue h => simp only [h, and_true, iff_true]; split <;> simp
  case isFalse h => simp [h]

theorem sse_not_mem_aesFlags (e : BuildEnv) :
    "-msse4.2" ∉ aesFlags e ∧ "/D__SSE4_2__" ∉ aesFlags e := by
  unfold aesFlags
  split
  · split <;> refine ⟨?_, ?_⟩ <;> decide
  · refine ⟨?_, ?_⟩ <;> decide

theorem aes_not_mem_sse42Flags (e : BuildEnv) :
    "-maes" ∉ sse42Flags e ∧ "/D__AES__" ∉ sse42Flags e := by
  unfold sse42Flags
  split
  · split <;> refine ⟨?_, ?_⟩ <;> decide
  · refine ⟨?_, ?_⟩ <;> decide

theorem processBlocks_eq_of_lt (V : Variant) (l buf : List Nat) (h : buf.length < 32) :
    processBlocks V l buf = (l, buf) := by
  rw [processBlocks]
  rw [dif_neg (by omega)]

theorem processBlocks_eq_of_le (V : Variant) (l buf : List Nat) (h : 32 ≤ buf.length) :
    processBlocks V l buf = processBlocks V (mixBlock V l (buf.take 32)) (buf.drop 32) := by
  rw [processBlocks]
  rw [dif_pos h]

theorem processBlocks_append_aux (V : Variant) :
    ∀ (n : Nat) (l a c : List Nat), a.length ≤ n →
      processBlocks V (processBlocks V l a).1 ((processBlocks V l a).2 ++ c)
        = processBlocks V l (a ++ c) := by
  intro n
  induction n with
  | zero =>
      intro l a c h
      rw [processBlocks_eq_of_lt V l a (by omega)]
  | succ n ih =>
      intro l a c h
      by_cases h32 : 32 ≤ a.length
      · have hlen : 32 ≤ (a ++ c).length := by
          rw [List.length_append]; omega
        rw [processBlocks_eq_of_le V l a h32, processBlocks_eq_of_le V l (a ++ c) hlen,
            List.take_append_of_le_length h32, List.drop_append_of_le_length h32]
        exact ih (mixBlock V l (a.take 32)) (a.drop 32) c (by rw [List.length_drop]; omega)
      · rw [processBlocks_eq_of_lt V l a (by omega)]

theorem processBlocks_append (V : Variant) (l a c : List Nat) :
    processBlocks V (processBlocks V l a).1 ((processBlocks V l a).2 ++ c)
      = processBlocks V l (a ++ c) :=
  processBlocks_append_aux V a.length l a c le_rfl

theorem processBlocks_snd_lt_aux (V : Variant) :
    ∀ (n : Nat) (l buf : List Nat), buf.length ≤ n →
      (processBlocks V l buf).2.length < 32 := by
  intro n
  induction n with
  | zero =>
      intro l buf h
      rw [processBlocks_eq_of_lt V l buf (by omega)]
      simpa using (by omega : buf.length < 32)
  | succ n ih =>
      intro l buf h
      by_cases h32 : 32 ≤ buf.length
      · rw [processBlocks_eq_of_le V l buf h32]
        exact ih _ _ (by rw [List.length_drop]; omega)
      · rw [processBlocks_eq_of_lt V l buf (by omega)]
        simpa using (by omega : buf.length < 32)

theorem processBlocks_snd_lt (V : Variant) (l buf : List Nat) :
    (processBlocks V l buf).2.length < 32 :=
  processBlocks_snd_lt_aux V buf.length l buf le_rfl

theorem updateRaw_append (st : EngineState) (b1 b2 : List Nat) :
    updateRaw (updateRaw st b1) b2 = updateRaw st (b1 ++ b2) := by
  have hp := processBlocks_append st.variant st.lanes (st.residual ++ b1) b2
  ext
  all_goals simp [updateRaw, hp, List.append_assoc, List.length_append, Nat.add_assoc]

theorem updateRaw_nil (st : EngineState) (h : st.residual.length < 32) :
    updateRaw st [] = st := by
  have hp := processBlocks_eq_of_lt st.variant st.lanes st.residual h
  ext
  all_goals simp [updateRaw, hp]

theorem updateRaw_residual_lt (st : EngineState) (b : List Nat) :
    (updateRaw st b).residual.length < 32 :=
  processBlocks_snd_lt st.variant st.lanes (st.residual ++ b)

theorem updateRaw_finalized (st : EngineState) (b : List Nat) :
    (updateRaw st b).finalized = st.finalized :=
  rfl

theorem foldl_updateRaw (chunks : List (List Nat)) :
    ∀ st : EngineState, st.residual.length < 32 →
      chunks.foldl updateRaw st = updateRaw st chunks.flatten := by
  induction chunks with
  | nil =>
      intro st h
      simp only [List.foldl_nil, List.flatten_nil]
      exact (updateRaw_nil st h).symm
  | cons c cs ih =>
      intro st h
      simp only [List.foldl_cons, List.flatten_cons]
      rw [ih (updateRaw st c) (updateRaw_residual_lt st c), updateRaw_append]

theorem update_eq_ok (st : EngineState) (b : List Nat) (h : st.finalized = false) :
    update st b = Except.ok (updateRaw st b) := by
  simp [update, h]

theorem feedChunks_ok (chunks : List (List Nat)) :
    ∀ st : EngineState, st.finalized = false →
      feedChunks st chunks = Except.ok (chunks.foldl updateRaw st) := by
  induction chunks with
  | nil => intro st h; rfl
  | cons c cs ih =>
      intro st h
      have hu : update st c = Except.ok (updateRaw st c) := update_eq_ok st c h
      simp only [feedChunks, hu, List.foldl_cons]
      exact ih (updateRaw st c) ((updateRaw_finalized st c).trans h)

theorem initEngine_residual_lt (V : Variant) (seed : Nat) (accel : Bool) :
    (initEngine V seed accel).residual.length < 32 := by
  simp [initEngine]

theorem initEngine_not_finalized (V : Variant) (seed : Nat) (accel : Bool) :
    (initEngine V seed accel).finalized = false :=
  rfl

/-! ## Claim theorems -/

/-- Claim C1 (counterexample): the spec's runtime-only selection policy fails
on the code: `setup.py` appends the acceleration flag from the build
machine's CPU query alone, so a build on a CPU reporting SSE4.2 selects the
accelerated path even when the CPU executing the binary reports no flags at
all. -/
theorem build_time_selection_refutes_runtime_policy : ¬ runtimeOnlySelectionPolicy := by
  intro hpol
  have h := hpol envSse42 [] (by decide)
  exact absurd h (by decide)

/-- Claim C1 (amended): acceleration selection is decided entirely at build
time: the SSE4.2 (resp. AES) compile flag is appended exactly when the CPU
flags queried on the build machine contain the instruction and the target
architecture is `x86_64` with 64-bit pointers; the CPU that later executes
the binary is never consulted. -/
theorem accel_selection_is_build_time (e : BuildEnv) :
    (("-msse4.2" ∈ CXXFLAGS e ∨ "/D__SSE4_2__" ∈ CXXFLAGS e)
        ↔ (HAVE_SSE42 e = true ∧ TARGET_ARCH e = "x86_64" ∧ BITS e = 64))
    ∧ (("-maes" ∈ CXXFLAGS e ∨ "/D__AES__" ∈ CXXFLAGS e)
        ↔ (HAVE_AES e = true ∧ TARGET_ARCH e = "x86_64" ∧ BITS e = 64)) := by
  obtain ⟨hb1, hb2, hb3, hb4⟩ := accel_not_mem_baseFlags e
  obtain ⟨hx1, hx2⟩ := sse_not_mem_aesFlags e
  obtain ⟨hy1, hy2⟩ := aes_not_mem_sse42Flags e
  have hs := mem_sse42Flags_iff e
  have ha := mem_aesFlags_iff e
  have hcx : ∀ f : String,
      f ∈ CXXFLAGS e ↔ (f ∈ baseFlags e ∨ f ∈ sse42Flags e ∨ f ∈ aesFlags e) := by
    intro f
    simp [CXXFLAGS, List.mem_append, or_assoc]
  rw [hcx, hcx, hcx, hcx]
  constructor
  · constructor
    · rintro ((h | h | h) | (h | h | h))
      · exact absurd h hb1
      · exact hs.mp (Or.inl h)
      · exact absurd h hx1
      · exact absurd h hb2
      · exact hs.mp (Or.inr h)
      · exact absurd h hx2
    · intro h
      rcases hs.mpr h with h2 | h2
      · exact Or.inl (Or.inr (Or.inl h2))
      · exact Or.inr (Or.inr (Or.inl h2))
  · constructor
    · rintro ((h | h | h) | (h | h | h))
      · exact absurd h hb3
      · exact absurd h hy1
      · exact ha.mp (Or.inl h)
      · exact absurd h hb4
      · exact absurd h hy2
      · exact ha.mp (Or.inr h)
    · intro h
      rcases ha.mpr h with h2 | h2
      · exact Or.inl (Or.inr (Or.inr h2))
      · exact Or.inr (Or.inr (Or.inr h2))

/-- Claim C2: if the CPU capability query raises, `CPU_FLAGS` is the empty
collection, both capability booleans are false, `CXXFLAGS` keeps only the
base optimisation flags (execution continues normally), and no acceleration
flag is selected. -/
theorem cpu_query_failure_disables_acceleration (e : BuildEnv) (err : String)
    (h : e.cpuQuery = Except.error err) :
    CPU_FLAGS e = [] ∧ HAVE_SSE42 e = false ∧ HAVE_AES e = false
      ∧ CXXFLAGS e = baseFlags e ∧ accelerationSelected e = false := by
  have hf : CPU_FLAGS e = [] := by simp [CPU_FLAGS, h]
  have hs : HAVE_SSE42 e = false := by unfold HAVE_SSE42; rw [hf]; rfl
  have ha : HAVE_AES e = false := by unfold HAVE_AES; rw [hf]; rfl
  have hcx : CXXFLAGS e = baseFlags e := by
    simp [CXXFLAGS, sse42Flags, aesFlags, hs, ha]
  have hacc : accelerationSelected e = false := by
    by_cases hnt : e.system = "nt" <;>
      simp [accelerationSelected, hcx, baseFlags, hnt]
  exact ⟨hf, hs, ha, hcx, hacc⟩

theorem cpu_query_failure_disables_acceleration_witness :
    envQueryFailed.cpuQuery = Except.error "cpuinfo failed"
      ∧ accelerationSelected envQueryFailed = false :=
  ⟨rfl, (cpu_query_failure_disables_acceleration envQueryFailed "cpuinfo failed" rfl).2.2.2.2⟩

/-- Claim C3: the module body of `setup.py` queries CPU capabilities exactly
once (at initialization), assigns `CPU_FLAGS`, `HAVE_SSE42` and `HAVE_AES`
exactly once each with no later mutation, and the two capability booleans are
functions of the query result alone. -/
theorem cpu_detection_once_and_immutable :
    setupModule.countP queriesCpu = 1
    ∧ setupModule.countP (assignsTo "CPU_FLAGS") = 1
    ∧ setupModule.countP (assignsTo "HAVE_SSE42") = 1
    ∧ setupModule.countP (assignsTo "HAVE_AES") = 1
    ∧ ∀ e1 e2 : BuildEnv, e1.cpuQuery = e2.cpuQuery →
        HAVE_SSE42 e1 = HAVE_SSE42 e2 ∧ HAVE_AES e1 = HAVE_AES e2 := by
  refine ⟨by decide, by decide, by decide, by decide, ?_⟩
  intro e1 e2 h
  constructor <;> simp [HAVE_SSE42, HAVE_AES, CPU_FLAGS, h]

theorem cpu_detection_once_and_immutable_witness :
    envSse42.cpuQuery = envSse42nt.cpuQuery ∧ HAVE_SSE42 envSse42 = HAVE_SSE42 envSse42nt :=
  ⟨rfl, (cpu_detection_once_and_immutable.2.2.2.2 envSse42 envSse42nt rfl).1⟩

/-- Claim C4: determinism of hashing. For every variant, seed, dispatcher
verdict and byte sequence, any two runs through the engine lifecycle that
feed the same bytes (in any chunkings) produce bit-exact equal digests, and
they equal the one-shot `metroHash`; the model contains no platform or
process parameter, so the digest is a function of the inputs alone. -/
theorem hash_deterministic (V : Variant) (seed : Nat) (accel : Bool)
    (chunks1 chunks2 : List (List Nat)) (h : chunks1.flatten = chunks2.flatten) :
    Except.map (fun st => (finalizeE st).1) (feedChunks (initEngine V seed accel) chunks1)
      = Except.map (fun st => (finalizeE st).1) (feedChunks (initEngine V seed accel) chunks2)
    ∧ Except.map (fun st => (finalizeE st).1) (feedChunks (initEngine V seed accel) chunks1)
      = Except.ok (metroHash V seed accel chunks1.flatten)
    ∧ metroHash V seed accel chunks1.flatten = metroHash V seed accel chunks2.flatten := by
  have run : ∀ cs : List (List Nat),
      feedChunks (initEngine V seed accel) cs
        = Except.ok (updateRaw (initEngine V seed accel) cs.flatten) := by
    intro cs
    rw [feedChunks_ok cs (initEngine V seed accel) (initEngine_not_finalized V seed accel),
        foldl_updateRaw cs (initEngine V seed accel) (initEngine_residual_lt V seed accel)]
  refine ⟨?_, ?_, ?_⟩
  · rw [run, run, h]
  · rw [run]; rfl
  · rw [h]

theorem hash_deterministic_witness :
    List.flatten [[1, 2], [3]] = List.flatten [[1], [2, 3]]
    ∧ metroHash Variant.metro64 0 false (List.flatten [[1, 2], [3]])
        = metroHash Variant.metro64 0 false (List.flatten [[1], [2, 3]]) :=
  ⟨rfl, (hash_deterministic Variant.metro64 0 false [[1, 2], [3]] [[1], [2, 3]] rfl).2.2⟩

/-- Claim C5: streaming equivalence. For every variant, seed, dispatcher
verdict and partition of a byte sequence into chunks, feeding the chunks via
sequential `update` calls succeeds and reaches exactly the engine state of a
single `update` on the whole sequence, so finalizing yields exactly the same
digest. -/
theorem streaming_equivalence (V : Variant) (seed : Nat) (accel : Bool)
    (chunks : List (List Nat)) :
    feedChunks (initEngine V seed accel) chunks
      = update (initEngine V seed accel) chunks.flatten
    ∧ Except.map (fun st => (finalizeE st).1) (feedChunks (initEngine V seed accel) chunks)
      = Except.ok ((finalizeE (updateRaw (initEngine V seed accel) chunks.flatten)).1) := by
  have run : feedChunks (initEngine V seed accel) chunks
      = Except.ok (updateRaw (initEngine V seed accel) chunks.flatten) := by
    rw [feedChunks_ok chunks (initEngine V seed accel) (initEngine_not_finalized V seed accel),
        foldl_updateRaw chunks (initEngine V seed accel) (initEngine_residual_lt V seed accel)]
  refine ⟨?_, ?_⟩
  · rw [run, update_eq_ok (initEngine V seed accel) chunks.flatten
      (initEngine_not_finalized V seed accel)]
  · rw [run]; rfl

/-- Claim C6: for every engine state, after `finalize` the engine is in the
`Finalized` lifecycle state and every subsequent `update` attempt, with any
bytes, reports an error; no successor state is produced, so the engine state
is never silently corrupted. -/
theorem update_after_finalize_errors (st : EngineState) (b : List Nat) :
    (finalizeE st).2.finalized = true
    ∧ update (finalizeE st).2 b
        = Except.error "update called on finalized engine; call reset first" := by
  refine ⟨rfl, ?_⟩
  simp [update, finalizeE]

/-- Claim C7: `get_long_description` is total: when the file reads and
decodes successfully it returns the decoded contents, when reading raises it
returns the built-in default, when decoding raises it returns the built-in
default; in every case it returns one of those two outcomes and never
propagates an exception. -/
theorem get_long_description_total (fs : FileSystem) (relpath encoding : String) :
    (∀ bytes s, fs.read relpath = Except.ok bytes →
        fs.decode encoding bytes = Except.ok s →
        get_long_description fs relpath encoding = s)
    ∧ (∀ err, fs.read relpath = Except.error err →
        get_long_description fs relpath encoding = defaultLongDescription)
    ∧ (∀ bytes err, fs.read relpath = Except.ok bytes →
        fs.decode encoding bytes = Except.error err →
        get_long_description fs relpath encoding = defaultLongDescription)
    ∧ (get_long_description fs relpath encoding = defaultLongDescription
        ∨ ∃ bytes s, fs.read relpath = Except.ok bytes
            ∧ fs.decode encoding bytes = Except.ok s
            ∧ get_long_description fs relpath encoding = s) := by
  refine ⟨?_, ?_, ?_, ?_⟩
  · intro bytes s h1 h2
    simp [get_long_description, h1, h2]
  · intro err h1
    simp [get_long_description, h1]
  · intro bytes err h1 h2
    simp [get_long_description, h1, h2]
  · cases h1 : fs.read relpath with
    | error err => exact Or.inl (by simp [get_long_description, h1])
    | ok bytes =>
        cases h2 : fs.decode encoding bytes with
        | error err => exact Or.inl (by simp [get_long_description, h1, h2])
        | ok s => exact Or.inr ⟨bytes, s, rfl, h2, by simp [get_long_description, h1, h2]⟩

theorem get_long_description_total_witness :
    fsOk.read "README.md" = Except.ok [104, 105]
    ∧ fsOk.decode "utf-8" [104, 105] = Except.ok "hi"
    ∧ get_long_description fsOk "README.md" "utf-8" = "hi" :=
  ⟨rfl, rfl, (get_long_description_total fsOk "README.md" "utf-8").1 [104, 105] "hi" rfl rfl⟩

/-- Claim C8: whenever the target architecture is not `x86_64` or the pointer
width is not 64 bits, none of the four acceleration flags is appended to
`CXXFLAGS`, regardless of which CPU flags were detected. -/
theorem no_accel_flags_off_x86_64 (e : BuildEnv)
    (h : TARGET_ARCH e ≠ "x86_64" ∨ BITS e ≠ 64) :
    "-msse4.2" ∉ CXXFLAGS e ∧ "/D__SSE4_2__" ∉ CXXFLAGS e
      ∧ "-maes" ∉ CXXFLAGS e ∧ "/D__AES__" ∉ CXXFLAGS e := by
  obtain ⟨hb1, hb2, hb3, hb4⟩ := accel_not_mem_baseFlags e
  obtain ⟨hx1, hx2⟩ := sse_not_mem_aesFlags e
  obtain ⟨hy1, hy2⟩ := aes_not_mem_sse42Flags e
  have hs := mem_sse42Flags_iff e
  have ha := mem_aesFlags_iff e
  have hcond : ∀ havefl : Bool,
      ¬(havefl = true ∧ TARGET_ARCH e = "x86_64" ∧ BITS e = 64) := by
    intro havefl hc
    rcases h with h | h
    · exact h hc.2.1
    · exact h hc.2.2
  have hnosse : ∀ f : String, f ∉ sse42Flags e := by
    intro f
    unfold sse42Flags
    rw [if_neg (hcond (HAVE_SSE42 e))]
    simp
  have hnoaes : ∀ f : String, f ∉ aesFlags e := by
    intro f
    unfold aesFlags
    rw [if_neg (hcond (HAVE_AES e))]
    simp
  have hcx : ∀ f : String,
      f ∈ CXXFLAGS e ↔ (f ∈ baseFlags e ∨ f ∈ sse42Flags e ∨ f ∈ aesFlags e) := by
    intro f
    simp [CXXFLAGS, List.mem_append, or_assoc]
  refine ⟨?_, ?_, ?_, ?_⟩ <;> rw [hcx] <;> rintro (hm | hm | hm)
  · exact hb1 hm
  · exact hnosse _ hm
  · exact hnoaes _ hm
  · exact hb2 hm
  · exact hnosse _ hm
  · exact hnoaes _ hm
  · exact hb3 hm
  · exact hnosse _ hm
  · exact hnoaes _ hm
  · exact hb4 hm
  · exact hnosse _ hm
  · exact hnoaes _ hm

theorem no_accel_flags_off_x86_64_witness :
    (TARGET_ARCH envAarch64 ≠ "x86_64" ∨ BITS envAarch64 ≠ 64)
    ∧ "-msse4.2" ∉ CXXFLAGS envAarch64 :=
  ⟨by decide, (no_accel_flags_off_x86_64 envAarch64 (by decide)).1⟩

/-- Claim C9: `get_system_bits` returns `struct.calcsize("P") * 8`; it
returns 64 exactly when the pointer size is 8 bytes and 32 exactly when the
pointer size is 4 bytes. -/
theorem get_system_bits_spec (p : Nat) :
    get_system_bits p = p * 8
    ∧ (get_system_bits p = 64 ↔ p = 8)
    ∧ (get_system_bits p = 32 ↔ p = 4) := by
  unfold get_system_bits
  omega

/-- Claim C10: `bdist_wheel_abi3.get_tag` returns `("cp36", "abi3", plat)`
whenever the superclass's python tag starts with `"cp"`, keeping the
superclass's platform tag, and returns the superclass triple unchanged
otherwise. -/
theorem get_tag_spec (python abi plat : String) :
    (pyStartsWith python "cp" = true → get_tag (python, abi, plat) = ("cp36", "abi3", plat))
    ∧ (pyStartsWith python "cp" = false → get_tag (python, abi, plat) = (python, abi, plat)) := by
  unfold get_tag
  constructor <;> intro h <;> simp [h]

theorem get_tag_spec_witness :
    pyStartsWith "cp39" "cp" = true
    ∧ get_tag ("cp39", "myabi", "manylinux1_x86_64") = ("cp36", "abi3", "manylinux1_x86_64") :=
  ⟨by decide, (get_tag_spec "cp39" "myabi" "manylinux1_x86_64").1 (by decide)⟩
